import Mathlib

set_option maxRecDepth 20000

/-!
Verification of the case-progression engine of `src/medical_expert.py`
(the Medical Case Trainer CME application).

The Python module drives a learner through a fixed cardiac case:
`CASE_SEQUENCE` names the four decision stages, `get_case_options`
supplies the fixed option sets, `MedicalCaseAgent.progress_case` builds
the instruction payload for the narrative collaborator and decides,
at the terminal stage, whether the submitted decision matches the
optimal pathway, and the Streamlit shell (`render_case_interface`,
`render_case_selection`, `process_chat_input`) mutates the per-learner
session state.  This file embeds those functions shallowly: the
narrative collaborator (`agent.run`) is an abstract
`gen : String → Option String`, where `none` models the call raising,
and the Streamlit `st.session_state` dictionary is the `SessionState`
structure threaded explicitly.
-/

/-- Python's substring test `needle in hay` on strings. -/
def pyIn (needle hay : String) : Bool := decide (needle.data <:+: hay.data)

/-- Python's `str.lower()` (the strings scored by the engine are ASCII). -/
def strLower (s : String) : String := String.mk (s.data.map Char.toLower)

/-- Line 33: the fixed sequence of case stages. -/
def CASE_SEQUENCE : List String :=
  ["initial", "treatment", "catheterization", "post_intervention"]

/-- The shape of the `CARDIAC_CASE` dictionary (lines 36-100). -/
structure CaseDef where
  title : String
  specialty : String
  difficulty : String
  content : String
deriving Repr, DecidableEq

/-- Lines 36-100: the sample cardiac case data, byte for byte. -/
def CARDIAC_CASE : CaseDef :=
  { title := "58-year-old with Acute Chest Pain"
    specialty := "Cardiology"
    difficulty := "Moderate"
    content :=
      "\n# Case: 58-year-old with Acute Chest Pain\n"
      ++ "\n"
      ++ "## Initial Presentation\n"
      ++ "A 58-year-old male presents to the emergency department with sudden onset severe chest pain that began 2 hours ago while mowing his lawn. The pain is described as crushing, radiating to the left arm and jaw, and is rated 8/10 in severity. The patient reports shortness of breath and diaphoresis. He has a history of hypertension, hyperlipidemia, and type 2 diabetes. Current medications include lisinopril, atorvastatin, and metformin. He smokes one pack of cigarettes daily for the past 30 years.\n"
      ++ "\n"
      ++ "Initial vital signs:\n"
      ++ "- BP: 165/95 mmHg\n"
      ++ "- HR: 96 bpm\n"
      ++ "- RR: 22/min\n"
      ++ "- Temp: 98.6¬∞F (37¬∞C)\n"
      ++ "- SpO2: 94% on room air\n"
      ++ "\n"
      ++ "## Lab Results\n"
      ++ "### Complete Blood Count\n"
      ++ "- WBC: 9.8 x 10^9/L (normal: 4.5-11.0)\n"
      ++ "- Hgb: 14.2 g/dL (normal: 13.5-17.5)\n"
      ++ "- Hct: 42% (normal: 41-53%)\n"
      ++ "- Platelets: 245 x 10^9/L (normal: 150-450)\n"
      ++ "\n"
      ++ "### Comprehensive Metabolic Panel\n"
      ++ "- Na: 138 mEq/L (normal: 135-145)\n"
      ++ "- K: 4.2 mEq/L (normal: 3.5-5.0)\n"
      ++ "- Cl: 101 mEq/L (normal: 98-107)\n"
      ++ "- CO2: 24 mEq/L (normal: 22-30)\n"
      ++ "- BUN: 18 mg/dL (normal: 7-20)\n"
      ++ "- Cr: 1.1 mg/dL (normal: 0.6-1.2)\n"
      ++ "- Glucose: 168 mg/dL (normal: 70-99)\n"
      ++ "\n"
      ++ "### Cardiac Enzymes\n"
      ++ "- Troponin I: 0.32 ng/mL (normal: <0.04)\n"
      ++ "- CK-MB: 8.5 ng/mL (normal: <5.0)\n"
      ++ "\n"
      ++ "### Lipid Panel\n"
      ++ "- Total Cholesterol: 235 mg/dL (normal: <200)\n"
      ++ "- LDL: 155 mg/dL (normal: <100)\n"
      ++ "- HDL: 38 mg/dL (normal: >40)\n"
      ++ "- Triglycerides: 210 mg/dL (normal: <150)\n"
      ++ "\n"
      ++ "## Diagnostic Imaging\n"
      ++ "### EKG Findings\n"
      ++ "12-lead EKG shows 2 mm ST-segment elevation in leads II, III, and aVF with reciprocal ST depression in leads I and aVL.\n"
      ++ "\n"
      ++ "### Optimal Management Path\n"
      ++ "Initial treatment should include aspirin 325 mg, sublingual nitroglycerin, and morphine for pain. This should be followed by immediate cardiac catheterization which will reveal a 95% occlusion of the right coronary artery. Percutaneous coronary intervention (PCI) with drug-eluting stent placement is the optimal treatment. Post-intervention therapy should include dual antiplatelet therapy, high-intensity statin, beta-blocker, and ACE inhibitor.\n"
      ++ "\n"
      ++ "### Learning Points\n"
      ++ "1. Classic presentation of acute STEMI includes crushing chest pain radiating to the arm and jaw, associated with shortness of breath and diaphoresis.\n"
      ++ "2. Inferior wall MIs typically present with ST elevation in leads II, III, and aVF.\n"
      ++ "3. Primary PCI is the preferred reperfusion strategy for STEMI when available in a timely manner.\n"
      ++ "4. Optimal medical therapy post-MI includes dual antiplatelet therapy, statins, beta-blockers, and ACE inhibitors.\n"
      ++ "5. Risk factor modification, including smoking cessation, is crucial for secondary prevention.\n"
      ++ "\n"
      ++ "### Correct Path Indicators\n"
      ++ "- Initial workup: Complete Blood Count, Metabolic Panel, and EKG\n"
      ++ "- Initial treatment: Administer aspirin and nitroglycerin\n"
      ++ "- Definitive treatment: Perform immediate cardiac catheterization\n"
      ++ "- Intervention: Percutaneous Coronary Intervention (PCI) with stent\n"
      ++ "- Secondary prevention: Comprehensive post-MI care (DAPT, statin, beta-blocker, ACE inhibitor)\n" }

/-- The mutable per-learner `st.session_state` keys the engine touches
(lines 103-125; the widget-only keys `agent` and `chat_input` are the
external collaborator handle and the text box and carry no engine state). -/
structure SessionState where
  user_id : String
  current_step : Nat
  case_history : List String
  user_decisions : List String
  case_completed : Bool
  case_started : Bool
  cme_earned : Bool
  chat_history : List (String × String)
  chat_processing : Bool
deriving Repr, DecidableEq

/-- Lines 103-125: the initial session state for a fresh user. -/
def initial_session (uid : String) : SessionState :=
  { user_id := uid
    current_step := 0
    case_history := []
    user_decisions := []
    case_completed := false
    case_started := false
    cme_earned := false
    chat_history := []
    chat_processing := false }

/-- Line 240: `"\n".join(f"Step {i+1}: {decision}" for i, decision in enumerate(...))`. -/
def decisionsTranscript (user_decisions : List String) : String :=
  String.intercalate "\n"
    (user_decisions.enum.map (fun p => "Step " ++ toString (p.1 + 1) ++ ": " ++ p.2))

/-- Line 239: `"\n\n".join(st.session_state.case_history)`. -/
def historyTranscript (case_history : List String) : String :=
  String.intercalate "\n\n" case_history

/-- Lines 189-230: `MedicalCaseAgent.get_case_options`, the predefined
options for each step, with the default fallback for out-of-range steps. -/
def get_case_options (step_index : Nat) : List String :=
  let options : List (List String) :=
    [ [ "Complete Blood Count, Metabolic Panel, and EKG",
        "Cardiac enzymes and 12-lead EKG",
        "Chest X-ray and cardiac monitoring",
        "CT angiogram with contrast" ],
      [ "Administer aspirin and nitroglycerin",
        "Perform immediate cardiac catheterization",
        "Start thrombolytic therapy",
        "Begin full-dose anticoagulation with heparin" ],
      [ "Percutaneous Coronary Intervention (PCI) with stent",
        "Medical management with anticoagulation",
        "Coronary artery bypass grafting (CABG)",
        "Balloon angioplasty without stent placement" ],
      [ "Initiate dual antiplatelet therapy, high-intensity statin, beta-blocker, and ACE inhibitor",
        "Administer aspirin only and continue previous medications",
        "Start therapeutic anticoagulation with low molecular weight heparin for 3 months",
        "Arrange outpatient cardiac rehabilitation without medication changes" ] ]
  if step_index < options.length then options.getD step_index []
  else ["Option 1", "Option 2", "Option 3", "Option 4"]

/-- Lines 629-634: the per-step headers of `render_case_interface`. -/
def step_headers : List String :=
  [ "Initial Diagnostic Workup",
    "Initial Treatment Decision",
    "Catheterization Intervention",
    "Post-Intervention Management" ]

/-- Lines 636-638: `current_header` defaults to "Decision Point" and is
replaced by the step header while the step is in range. -/
def current_header (current_step : Nat) : String :=
  if current_step < step_headers.length then step_headers.getD current_step "Decision Point"
  else "Decision Point"

/-- Lines 243-246 of `progress_case`: the stage for a step index defaults
to `post_intervention` for any extra steps. -/
def stage_for_step (step_index : Nat) : String :=
  if step_index < CASE_SEQUENCE.length then CASE_SEQUENCE.getD step_index ""
  else "post_intervention"

/-- A step is terminal when `progress_case` can mark the case completed
there: the correctness test and the `case_near_complete` flag live only
in the `step_index == 3` branch (lines 311-342). -/
def is_terminal_step (step_index : Nat) : Bool := step_index == 3

/-- The stage context the engine resolves for a step index: stage id
(lines 243-246), display header (lines 636-638), option set
(lines 189-230) and whether the step can complete the case. -/
structure StageContext where
  stageId : String
  header : String
  options : List String
  isTerminal : Bool
deriving Repr, DecidableEq

/-- Stage resolution for a step index, assembled from the source's four
step-indexed tables. -/
def resolveStage (step_index : Nat) : StageContext :=
  { stageId := stage_for_step step_index
    header := current_header step_index
    options := get_case_options step_index
    isTerminal := is_terminal_step step_index }

/-- Lines 313-317: the inline correctness test of the post-intervention
step, on the lowercased action. -/
def postInterventionCorrect (action : String) : Bool :=
  let action_lower := strLower action
  (pyIn "dual antiplatelet" action_lower || pyIn "dapt" action_lower)
    && pyIn "statin" action_lower
    && ((pyIn "beta" action_lower && pyIn "blocker" action_lower) || pyIn "ace" action_lower)

/-- Lines 170-184: the opening prompt `start_case` builds. -/
def start_case_prompt (case_content : String) : String :=
  "\n        You'll be facilitating a medical case for a physician learner.\n        \n        Here is the full case information for your reference (the learner won't see all of this yet):\n        \n        "
    ++ (case_content
    ++ "\n        \n        Present only the initial clinical presentation with:\n        1. Brief patient demographics\n        2. Chief complaint\n        3. Key history elements\n        4. Initial vital signs\n        \n        Do not reveal the diagnosis or full case details yet. Wait for the user to request labs or choose an initial intervention.\n        ")

/-- Lines 253-268: the step-0 (initial workup) instruction template. -/
def prompt_initial_workup (case_content history action : String) : String :=
  "\n            Case reference (not to be fully revealed to the learner yet):\n            "
    ++ (case_content
    ++ ("\n            \n            Conversation history:\n            "
    ++ (history
    ++ ("\n            \n            The physician has requested: \""
    ++ (action
    ++ "\"\n            \n            Provide appropriate initial lab results, imaging findings, or other requested clinical data.\n            Be sure to include EKG findings that show ST elevation and elevated troponin.\n            Then present the patient's CURRENT STATUS and ask what initial intervention they would like to pursue.\n            \n            DO NOT PROVIDE ANY OPTIONS yourself as these will be pre-defined in the interface.\n            ")))))

/-- Lines 269-289: the step-1 (initial treatment) instruction template. -/
def prompt_initial_treatment (case_content history decisions action : String) : String :=
  "\n            Case reference:\n            "
    ++ (case_content
    ++ ("\n            \n            Conversation history:\n            "
    ++ (history
    ++ ("\n            \n            Physician decisions so far:\n            "
    ++ (decisions
    ++ ("\n            \n            The physician has chosen: \""
    ++ (action
    ++ "\"\n            \n            Advance the case by:\n            1. Describing the patient's response to initial treatment\n            2. Explaining that the cardiologist recommends immediate cardiac catheterization\n            3. Describe the findings from the coronary angiography showing 95% occlusion of the right coronary artery\n            4. Ask what intervention they would recommend for this catheterization finding\n            \n            DO NOT PROVIDE ANY OPTIONS yourself as these will be pre-defined in the interface.\n            ")))))))

/-- Lines 290-310: the step-2 (catheterization intervention) template. -/
def prompt_catheterization (case_content history decisions action : String) : String :=
  "\n            Case reference:\n            "
    ++ (case_content
    ++ ("\n            \n            Conversation history:\n            "
    ++ (history
    ++ ("\n            \n            Physician decisions so far:\n            "
    ++ (decisions
    ++ ("\n            \n            The physician has chosen: \""
    ++ (action
    ++ "\"\n            \n            Advance the case by:\n            1. Describing that the PCI with stent placement procedure was successful\n            2. Detailing the immediate post-procedure results and patient status\n            3. Explaining that the patient is now stable post-PCI\n            4. Ask what post-intervention management plan they would like to implement\n            \n            DO NOT PROVIDE ANY OPTIONS yourself as these will be pre-defined in the interface.\n            ")))))))

/-- Lines 319-342: the step-3 template for the correct comprehensive
post-MI decision. -/
def prompt_post_mi_success (case_content history decisions action : String) : String :=
  "\n                Case reference:\n                "
    ++ (case_content
    ++ ("\n                \n                Conversation history:\n                "
    ++ (history
    ++ ("\n                \n                Physician decisions so far:\n                "
    ++ (decisions
    ++ ("\n                \n                The physician has chosen: \""
    ++ (action
    ++ "\"\n                \n                This is the correct comprehensive post-MI approach and completes the case management.\n                \n                Provide:\n                1. A detailed description of the positive outcome for the patient\n                2. A comprehensive explanation of why this was the optimal approach\n                3. An educational summary of the key learning points from this case\n                4. Evidence-based rationale with 2-3 specific literature references\n                5. Explicitly congratulate the physician on completing the case successfully\n                6. State that they have earned CME credit for this case completion\n                \n                Make your response comprehensive and educational, suitable for medical CME credit.\n                ")))))))

/-- Lines 343-365: the step-3 template for an incorrect post-MI decision. -/
def prompt_post_mi_retry (case_content history decisions action : String) : String :=
  "\n                Case reference:\n                "
    ++ (case_content
    ++ ("\n                \n                Conversation history:\n                "
    ++ (history
    ++ ("\n                \n                Physician decisions so far:\n                "
    ++ (decisions
    ++ ("\n                \n                The physician has chosen: \""
    ++ (action
    ++ "\"\n                \n                The patient has already had a successful PCI with stent placement.\n                \n                Explain what is missing or suboptimal about their post-PCI care selection.\n                \n                Clearly explain that guidelines recommend comprehensive secondary prevention with DAPT, \n                statin, beta-blocker, and ACE inhibitor therapy post-MI.\n                Ask what post-intervention management they would like to choose instead.\n                \n                DO NOT PROVIDE ANY OPTIONS yourself as these will be pre-defined in the interface.\n                ")))))))

/-- Lines 366-383: the template for any extra steps past the sequence. -/
def prompt_extra_steps (case_content history decisions action : String) : String :=
  "\n            Case reference:\n            "
    ++ (case_content
    ++ ("\n            \n            Conversation history:\n            "
    ++ (history
    ++ ("\n            \n            Physician decisions so far:\n            "
    ++ (decisions
    ++ ("\n            \n            The physician has chosen: \""
    ++ (action
    ++ "\"\n            \n            Provide feedback on this decision and ask if they would like to make any additional changes\n            to their management plan.\n            \n            DO NOT PROVIDE ANY OPTIONS yourself as these will be pre-defined in the interface.\n            ")))))))

/-- Lines 232-383, the pure heart of `progress_case`: the instruction
payload for the collaborator and the `case_near_complete` flag, as the
step-indexed `if`/`elif` chain computes them. -/
def progressPrompt (case_content history decisions action : String) (step_index : Nat) :
    String × Bool :=
  match step_index with
  | 0 => (prompt_initial_workup case_content history action, false)
  | 1 => (prompt_initial_treatment case_content history decisions action, false)
  | 2 => (prompt_catheterization case_content history decisions action, false)
  | 3 =>
      if postInterventionCorrect action then
        (prompt_post_mi_success case_content history decisions action, true)
      else
        (prompt_post_mi_retry case_content history decisions action, false)
  | _ + 4 => (prompt_extra_steps case_content history decisions action, false)

/-- Lines 388-391: the completion update of `progress_case`, keyed on the
`case_near_complete` flag (true exactly at the terminal step with a true
verdict): it sets `case_completed` and `cme_earned`, and otherwise the
state is left as it is. -/
def applyOutcome (s : SessionState) (isTerm verdict : Bool) : SessionState :=
  if isTerm && verdict then { s with case_completed := true, cme_earned := true } else s

/-- Lines 232-392: `MedicalCaseAgent.progress_case` against an abstract
collaborator `gen` (`agent.run`); `none` models the call raising, in
which case the flags at lines 388-391 are never written. -/
def progress_case (gen : String → Option String) (s : SessionState) (action : String)
    (step_index : Nat) : Option (String × SessionState) :=
  let history := historyTranscript s.case_history
  let decisions := decisionsTranscript s.user_decisions
  let pb := progressPrompt CARDIAC_CASE.content history decisions action step_index
  match gen pb.1 with
  | none => none
  | some response =>
      some (response, if pb.2 then { s with case_completed := true, cme_earned := true } else s)

/-- Lines 647-664 of `render_case_interface`: one submitted decision.
The decision is appended (line 650) before `progress_case` is called
(line 653); if the collaborator call raises, the handler stops there and
the already-written append stays, while history, step counter and flags
keep their prior values. -/
def submitDecision (gen : String → Option String) (s : SessionState) (action : String) :
    SessionState :=
  let s1 := { s with user_decisions := s.user_decisions ++ [action] }
  match progress_case gen s1 action s1.current_step with
  | none => s1
  | some (next_info, s2) =>
      { s2 with
        case_history := s2.case_history ++ [next_info]
        current_step := s2.current_step + 1 }

/-- A submission whose collaborator round trip succeeds: `gen` is total. -/
def submitOk (gen : String → String) (s : SessionState) (action : String) : SessionState :=
  submitDecision (fun p => some (gen p)) s action

/-- Lines 534-549 of `render_case_selection`: starting the case invokes
`start_case` (whose prompt is `start_case_prompt`) and, on a successful
round trip, resets the session for a fresh run. -/
def startCase (gen : String → Option String) (s : SessionState) : SessionState :=
  match gen (start_case_prompt CARDIAC_CASE.content) with
  | none => s
  | some initial_presentation =>
      { s with
        case_started := true
        current_step := 0
        case_history := [initial_presentation]
        user_decisions := []
        case_completed := false
        chat_history := [] }

/-- Lines 680-692 of `render_case_interface`: the Restart Case button.
It re-runs `start_case` and resets step counter, history, decisions,
completion flag and chat, keeping the same case (the immutable global
`CARDIAC_CASE`) and the same learner (`user_id` is untouched). -/
def restartCase (gen : String → Option String) (s : SessionState) : SessionState :=
  match gen (start_case_prompt CARDIAC_CASE.content) with
  | none => s
  | some initial_presentation =>
      { s with
        current_step := 0
        case_history := [initial_presentation]
        user_decisions := []
        case_completed := false
        chat_history := [] }

/-- Lines 394-443: the prompt `ask_question` builds for a freeform
question, from the current session state and step index.  The
parenthesised group around `Case completed:` keeps the completion marker
one contiguous piece of the payload. -/
def ask_question_prompt (s : SessionState) (question : String) (step_index : Nat) : String :=
  let case_content := CARDIAC_CASE.content
  let history := historyTranscript s.case_history
  let decisions := decisionsTranscript s.user_decisions
  let current_stage :=
    if step_index < CASE_SEQUENCE.length then CASE_SEQUENCE.getD step_index ""
    else "case_review"
  "\n        The physician has a question about the current case:\n        \n        \""
    ++ (question
    ++ ("\"\n        \n        Case reference (for your understanding only):\n        "
    ++ (case_content
    ++ ("\n        \n        Current case progression:\n        - Step index: "
    ++ (toString step_index
    ++ ("\n        - Current stage: "
    ++ (current_stage
    ++ (" \n        - Case history: "
    ++ (history
    ++ ("\n        - Decisions made: "
    ++ (decisions
    ++ ("\n        "
    ++ (("- Case completed: " ++ (if s.case_completed then "Yes" else "No"))
    ++ ("\n        \n        Please answer their question knowledgeably while considering:\n        1. Where they currently are in the case (step "
    ++ (toString step_index
    ++ (", "
    ++ (current_stage
    ++ " stage)\n        2. What they already know based on the case history\n        3. What would be appropriate educational content without revealing future diagnostics or treatments\n        \n        If they ask about what to do next, guide them to use the decision interface instead of directly telling them.\n        If they ask about content that hasn't been revealed yet, explain that it would be premature to discuss that\n        at the current stage of the case.\n        \n        If the case is completed, you can provide more comprehensive information as they have already\n        finished the case scenario.\n        \n        Respond as an experienced medical educator providing guidance during a case-based learning session.\n        ")))))))))))))))))

/-- Lines 446-470: `process_chat_input`, the only shell path that runs a
freeform question: it mutates the chat transcript and busy flag only.
If the collaborator raises, the handler stops with the busy flag set. -/
def process_chat_input (gen : String → Option String) (s : SessionState)
    (user_question : String) : SessionState :=
  if user_question ≠ "" ∧ s.chat_processing = false then
    let s1 := { s with chat_processing := true }
    match gen (ask_question_prompt s1 user_question s1.current_step) with
    | none => s1
    | some response =>
        { s1 with
          chat_history := s1.chat_history ++ [(user_question, response)]
          chat_processing := false }
  else s

/-- A whole run: start the case (collaborator returns
`first_presentation`), then submit the decisions in order, every
narrative round trip succeeding. -/
def runCase (gen : String → String) (uid first_presentation : String)
    (actions : List String) : SessionState :=
  actions.foldl (submitOk gen) (startCase (fun _ => some first_presentation) (initial_session uid))

/-- The four optimal decisions of the end-to-end scenario. -/
def optimal_decisions : List String :=
  [ "Complete Blood Count, Metabolic Panel, and EKG",
    "Administer aspirin and nitroglycerin",
    "Percutaneous Coronary Intervention (PCI) with stent",
    "Initiate dual antiplatelet therapy, high-intensity statin, beta-blocker, and ACE inhibitor" ]

/-- The retry scenario: the optimal path up to the terminal stage, a
wrong terminal decision, then the correct terminal decision again. -/
def retry_decisions : List String :=
  [ "Complete Blood Count, Metabolic Panel, and EKG",
    "Administer aspirin and nitroglycerin",
    "Percutaneous Coronary Intervention (PCI) with stent",
    "Administer aspirin only and continue previous medications",
    "Initiate dual antiplatelet therapy, high-intensity statin, beta-blocker, and ACE inhibitor" ]

/-- A session in which the case has just been started. -/
def demo_started : SessionState :=
  startCase (fun _ => some "presentation") (initial_session "user-1")

/-- A started session whose learner has already earned the credential. -/
def demo_earned : SessionState := { demo_started with cme_earned := true }

/-- The terminal-stage correctness requirement in the words of the
specification: the lowercased decision contains ("dual antiplatelet" or
"dapt"), contains "statin", and contains ("ace" or both "beta" and
"blocker") as substrings.  Stated independently of the code's inline
test, to be compared with it. -/
def claimTerminalKeywords (d : String) : Prop :=
  let a := strLower d
  (pyIn "dual antiplatelet" a = true ∨ pyIn "dapt" a = true)
    ∧ pyIn "statin" a = true
    ∧ (pyIn "ace" a = true ∨ (pyIn "beta" a = true ∧ pyIn "blocker" a = true))

/-! Helper lemmas about substring containment and the engine pipeline. -/

/-- A substring of the right part is a substring of the whole. -/
theorem pyIn_right (n a t : String) (h : pyIn n t = true) : pyIn n (a ++ t) = true := by
  simp only [pyIn, decide_eq_true_eq] at h ⊢
  obtain ⟨s, u, hh⟩ := h
  exact ⟨a.data ++ s, u, by simp [String.data_append, ← hh]⟩

/-- A substring of the left part is a substring of the whole. -/
theorem pyIn_left (n t c : String) (h : pyIn n t = true) : pyIn n (t ++ c) = true := by
  simp only [pyIn, decide_eq_true_eq] at h ⊢
  obtain ⟨s, u, hh⟩ := h
  exact ⟨s, u ++ c.data, by simp [String.data_append, ← hh]⟩

/-- The `case_near_complete` flag computed by the prompt builder is the
conjunction "terminal step and correct decision". -/
theorem progressPrompt_verdict (c h d a : String) (i : Nat) :
    (progressPrompt c h d a i).2 = (is_terminal_step i && postInterventionCorrect a) := by
  match i with
  | 0 => rfl
  | 1 => rfl
  | 2 => rfl
  | 3 =>
      cases hv : postInterventionCorrect a <;>
        simp [progressPrompt, is_terminal_step, hv]
  | n + 4 =>
      cases hv : postInterventionCorrect a <;>
        simp [progressPrompt, is_terminal_step, hv]

/-- One successful submission appends the decision. -/
theorem submitOk_decisions (gen : String → String) (s : SessionState) (a : String) :
    (submitOk gen s a).user_decisions = s.user_decisions ++ [a] := by
  simp only [submitOk, submitDecision, progress_case]
  cases hv : (progressPrompt CARDIAC_CASE.content
      (historyTranscript s.case_history)
      (decisionsTranscript (s.user_decisions ++ [a])) a s.current_step).2 <;>
    simp [hv]

/-- One successful submission appends exactly one history entry. -/
theorem submitOk_history_len (gen : String → String) (s : SessionState) (a : String) :
    (submitOk gen s a).case_history.length = s.case_history.length + 1 := by
  simp only [submitOk, submitDecision, progress_case]
  cases hv : (progressPrompt CARDIAC_CASE.content
      (historyTranscript s.case_history)
      (decisionsTranscript (s.user_decisions ++ [a])) a s.current_step).2 <;>
    simp [hv]

/-- One successful submission advances the step counter by one. -/
theorem submitOk_step (gen : String → String) (s : SessionState) (a : String) :
    (submitOk gen s a).current_step = s.current_step + 1 := by
  simp only [submitOk, submitDecision, progress_case]
  cases hv : (progressPrompt CARDIAC_CASE.content
      (historyTranscript s.case_history)
      (decisionsTranscript (s.user_decisions ++ [a])) a s.current_step).2 <;>
    simp [hv]

/-- One successful submission keeps the head (opening) history entry. -/
theorem submitOk_history_head (gen : String → String) (s : SessionState) (a : String)
    (h : s.case_history ≠ []) :
    (submitOk gen s a).case_history.head? = s.case_history.head? := by
  simp only [submitOk, submitDecision, progress_case]
  cases hv : (progressPrompt CARDIAC_CASE.content
      (historyTranscript s.case_history)
      (decisionsTranscript (s.user_decisions ++ [a])) a s.current_step).2 <;>
    cases hl : s.case_history <;> simp_all [hv]

/-- The completion flag after a successful submission: the verdict at the
pre-submission step, or the flag already set. -/
theorem submitOk_completed (gen : String → String) (s : SessionState) (a : String) :
    (submitOk gen s a).case_completed
      = ((is_terminal_step s.current_step && postInterventionCorrect a) || s.case_completed) := by
  simp only [submitOk, submitDecision, progress_case]
  rw [show (decisionsTranscript (s.user_decisions ++ [a])) = decisionsTranscript
    ({ s with user_decisions := s.user_decisions ++ [a] } : SessionState).user_decisions from rfl]
  cases hv : (progressPrompt CARDIAC_CASE.content
      (historyTranscript s.case_history)
      (decisionsTranscript (s.user_decisions ++ [a])) a s.current_step).2 <;>
    rw [progressPrompt_verdict] at hv <;> simp [hv]

/-- The credential flag after a successful submission. -/
theorem submitOk_cme (gen : String → String) (s : SessionState) (a : String) :
    (submitOk gen s a).cme_earned
      = ((is_terminal_step s.current_step && postInterventionCorrect a) || s.cme_earned) := by
  simp only [submitOk, submitDecision, progress_case]
  cases hv : (progressPrompt CARDIAC_CASE.content
      (historyTranscript s.case_history)
      (decisionsTranscript (s.user_decisions ++ [a])) a s.current_step).2 <;>
    rw [progressPrompt_verdict] at hv <;> simp [hv]

/-! The claims. -/

/-- Claim C1: for a decision submitted at the terminal
(`post_intervention`) stage, the evaluator reports a match exactly when
the lowercased decision contains ("dual antiplatelet" or "dapt"),
contains "statin", and contains ("ace" or both "beta" and "blocker") as
substrings; in particular the comprehensive post-MI bundle evaluates to
true and the aspirin-only decision to false. -/
theorem terminal_evaluator_keyword_match :
    (∀ (c h d action : String),
        ((progressPrompt c h d action 3).2 = true ↔ claimTerminalKeywords action))
    ∧ (progressPrompt CARDIAC_CASE.content "" ""
        "Initiate dual antiplatelet therapy, high-intensity statin, beta-blocker, and ACE inhibitor"
        3).2 = true
    ∧ (progressPrompt CARDIAC_CASE.content "" ""
        "Administer aspirin only and continue previous medications" 3).2 = false := by
  refine ⟨fun c h d action => ?_, by decide, by decide⟩
  rw [progressPrompt_verdict]
  have ht : is_terminal_step 3 = true := rfl
  simp only [ht, Bool.true_and, claimTerminalKeywords, postInterventionCorrect,
    Bool.and_eq_true, Bool.or_eq_true]
  tauto

/-- Claim C3: the completion update sets `case_completed` and
`cme_earned` exactly when the step is terminal and the verdict true and
leaves every other field (and, absent that conjunction, those flags)
untouched; repeating it changes nothing further; it is exactly the flag
update the submission pipeline performs; and the four optimal decisions,
submitted in order, leave the case completed with the credential issued
after the fourth submission. -/
theorem completion_exact_idempotent_end_to_end :
    (∀ (s : SessionState) (it v : Bool),
        (applyOutcome s it v).case_completed = (it && v || s.case_completed)
        ∧ (applyOutcome s it v).cme_earned = (it && v || s.cme_earned)
        ∧ (applyOutcome s it v).current_step = s.current_step
        ∧ (applyOutcome s it v).user_decisions = s.user_decisions
        ∧ (applyOutcome s it v).case_history = s.case_history)
    ∧ (∀ (s : SessionState) (it v : Bool),
        applyOutcome (applyOutcome s it v) it v = applyOutcome s it v)
    ∧ (∀ (gen : String → String) (s : SessionState) (a : String),
        (submitOk gen s a).case_completed
          = (applyOutcome s (is_terminal_step s.current_step)
              (postInterventionCorrect a)).case_completed
        ∧ (submitOk gen s a).cme_earned
          = (applyOutcome s (is_terminal_step s.current_step)
              (postInterventionCorrect a)).cme_earned)
    ∧ (∀ (gen : String → String),
        (runCase gen "user-1" "presentation" optimal_decisions).case_completed = true
        ∧ (runCase gen "user-1" "presentation" optimal_decisions).cme_earned = true) := by
  refine ⟨?_, ?_, ?_, ?_⟩
  · intro s it v
    cases hb : (it && v) <;> simp [applyOutcome, hb]
  · intro s it v
    cases hb : (it && v) <;> simp [applyOutcome, hb]
  · intro gen s a
    rw [submitOk_completed, submitOk_cme]
    cases hb : (is_terminal_step s.current_step && postInterventionCorrect a) <;>
      simp [applyOutcome, hb]
  · intro gen
    have hp : postInterventionCorrect
        "Initiate dual antiplatelet therapy, high-intensity statin, beta-blocker, and ACE inhibitor"
        = true := by decide
    have h0 : is_terminal_step 0 = false := rfl
    have h1 : is_terminal_step 1 = false := rfl
    have h2 : is_terminal_step 2 = false := rfl
    have h3 : is_terminal_step 3 = true := rfl
    simp only [runCase, optimal_decisions, List.foldl]
    constructor
    · rw [submitOk_completed, submitOk_step, submitOk_step, submitOk_step,
        show (startCase (fun _ => some "presentation")
          (initial_session "user-1")).current_step = 0 from rfl]
      simp [h3, hp]
    · rw [submitOk_cme, submitOk_step, submitOk_step, submitOk_step,
        show (startCase (fun _ => some "presentation")
          (initial_session "user-1")).current_step = 0 from rfl]
      simp [h3, hp]

/-- Claim C5: every step index at or past the end of the stage sequence
resolves to the synthetic fallback stage (stage id of the last stage,
generic header, generic option set, not terminal), and the payload
builder never marks completion there — stage resolution is total and
never fails. -/
theorem fallback_stage_for_out_of_range (i : Nat) (h : 4 ≤ i) :
    resolveStage i =
      { stageId := "post_intervention"
        header := "Decision Point"
        options := ["Option 1", "Option 2", "Option 3", "Option 4"]
        isTerminal := false }
    ∧ ∀ (c hist decs a : String), (progressPrompt c hist decs a i).2 = false := by
  obtain ⟨n, rfl⟩ : ∃ n, i = n + 4 := ⟨i - 4, by omega⟩
  refine ⟨rfl, fun c hist decs a => ?_⟩
  cases hv : postInterventionCorrect a <;> simp [progressPrompt, hv]

/-- Witness for C5 at the concrete out-of-range index 5. -/
theorem fallback_stage_for_out_of_range_witness :
    resolveStage 5 =
      { stageId := "post_intervention"
        header := "Decision Point"
        options := ["Option 1", "Option 2", "Option 3", "Option 4"]
        isTerminal := false }
    ∧ ∀ (c hist decs a : String), (progressPrompt c hist decs a 5).2 = false :=
  fallback_stage_for_out_of_range 5 (by norm_num)

/-- Claim C7: restarting (with a successful opening round trip) resets
the step counter, decisions, history, completion flag and chat to their
initial values, while the learner identity is untouched (the case itself
is the immutable global `CARDIAC_CASE`, which no session operation
writes). -/
theorem restart_resets_session :
    ∀ (s : SessionState) (pres : String),
      (restartCase (fun _ => some pres) s).current_step = 0
      ∧ (restartCase (fun _ => some pres) s).user_decisions = []
      ∧ (restartCase (fun _ => some pres) s).case_history = [pres]
      ∧ (restartCase (fun _ => some pres) s).case_completed = false
      ∧ (restartCase (fun _ => some pres) s).chat_history = []
      ∧ (restartCase (fun _ => some pres) s).user_id = s.user_id :=
  fun _ _ => ⟨rfl, rfl, rfl, rfl, rfl, rfl⟩

/-- Claim C10: an earned credential is never revoked: whatever the
collaborator does, a submission, a restart, a fresh case start and a
freeform question all leave `cme_earned` true once it is true. -/
theorem credential_never_revoked (gen : String → Option String) (s : SessionState)
    (a q : String) (h : s.cme_earned = true) :
    (submitDecision gen s a).cme_earned = true
    ∧ (restartCase gen s).cme_earned = true
    ∧ (startCase gen s).cme_earned = true
    ∧ (process_chat_input gen s q).cme_earned = true := by
  refine ⟨?_, ?_, ?_, ?_⟩
  · simp only [submitDecision, progress_case]
    cases hv : (progressPrompt CARDIAC_CASE.content
        (historyTranscript s.case_history)
        (decisionsTranscript (s.user_decisions ++ [a])) a s.current_step).2 <;>
      cases hg : gen (progressPrompt CARDIAC_CASE.content
        (historyTranscript s.case_history)
        (decisionsTranscript (s.user_decisions ++ [a])) a s.current_step).1 <;>
      simp [hv, hg, h]
  · simp only [restartCase]
    cases hg : gen (start_case_prompt CARDIAC_CASE.content) <;> simp [hg, h]
  · simp only [startCase]
    cases hg : gen (start_case_prompt CARDIAC_CASE.content) <;> simp [hg, h]
  · simp only [process_chat_input]
    split
    · cases hg : gen (ask_question_prompt { s with chat_processing := true } q
          ({ s with chat_processing := true } : SessionState).current_step) <;>
        simp [hg, h]
    · exact h

/-- Witness for C10 on a concrete earned session. -/
theorem credential_never_revoked_witness :
    (submitDecision (fun _ => none) demo_earned "x").cme_earned = true
    ∧ (restartCase (fun _ => none) demo_earned).cme_earned = true
    ∧ (startCase (fun _ => none) demo_earned).cme_earned = true
    ∧ (process_chat_input (fun _ => none) demo_earned "q").cme_earned = true :=
  credential_never_revoked (fun _ => none) demo_earned "x" "q" rfl

/-- Fold invariant: a state satisfying the history/decisions/step
invariants keeps them under any sequence of successful submissions. -/
theorem runCase_fold_invariant (gen : String → String) (fp : String) :
    ∀ (acts : List String) (s : SessionState),
      s.case_history.length = s.current_step + 1 →
      s.user_decisions.length = s.current_step →
      s.case_history.head? = some fp →
      (acts.foldl (submitOk gen) s).case_history.length
          = (acts.foldl (submitOk gen) s).current_step + 1
      ∧ (acts.foldl (submitOk gen) s).user_decisions.length
          = (acts.foldl (submitOk gen) s).current_step
      ∧ (acts.foldl (submitOk gen) s).case_history.head? = some fp
  | [], _, h1, h2, h3 => ⟨h1, h2, h3⟩
  | a :: rest, s, h1, h2, h3 => by
      have hne : s.case_history ≠ [] := by
        intro hnil
        rw [hnil] at h1
        simp at h1
      have step1 : (submitOk gen s a).case_history.length
          = (submitOk gen s a).current_step + 1 := by
        rw [submitOk_history_len, submitOk_step, h1]
      have step2 : (submitOk gen s a).user_decisions.length
          = (submitOk gen s a).current_step := by
        rw [submitOk_decisions, submitOk_step]
        simp [h2]
      have step3 : (submitOk gen s a).case_history.head? = some fp := by
        rw [submitOk_history_head gen s a hne, h3]
      exact runCase_fold_invariant gen fp rest (submitOk gen s a) step1 step2 step3

/-- Claim C6: along every reachable run, after every submission the
history is one longer than the step index with the opening presentation
at index 0, the decision list length equals the step index, and each
successful submission appends exactly one decision, appends exactly one
history entry, and increments the step index by exactly one. -/
theorem history_and_decisions_invariant :
    ∀ (gen : String → String) (uid fp : String) (actions : List String),
      (runCase gen uid fp actions).case_history.length
          = (runCase gen uid fp actions).current_step + 1
      ∧ (runCase gen uid fp actions).user_decisions.length
          = (runCase gen uid fp actions).current_step
      ∧ (runCase gen uid fp actions).case_history.head? = some fp
      ∧ ∀ (s : SessionState) (a : String),
          (submitOk gen s a).user_decisions.length = s.user_decisions.length + 1
          ∧ (submitOk gen s a).case_history.length = s.case_history.length + 1
          ∧ (submitOk gen s a).current_step = s.current_step + 1 := by
  intro gen uid fp actions
  obtain ⟨h1, h2, h3⟩ := runCase_fold_invariant gen fp actions
    (startCase (fun _ => some fp) (initial_session uid)) rfl rfl rfl
  refine ⟨h1, h2, h3, fun s a => ⟨?_, submitOk_history_len gen s a, submitOk_step gen s a⟩⟩
  rw [submitOk_decisions]
  simp

/-- Counterexample to claim C4 as stated: when the collaborator call
raises, `user_decisions` does not retain its pre-submission value. -/
theorem collaborator_failure_mutates_decisions :
    (submitDecision (fun _ => none) demo_started
        "Cardiac enzymes and 12-lead EKG").user_decisions
      ≠ demo_started.user_decisions := by decide

/-- Claim C4 amended: on collaborator failure the step counter, history,
completion flag and credential flag keep their pre-submission values,
while the decision list has the submitted decision appended — the append
happens before the fallible call, so the whole state change is exactly
that append. -/
theorem collaborator_failure_frame (gen : String → Option String)
    (s : SessionState) (a : String) (h : ∀ p, gen p = none) :
    submitDecision gen s a = { s with user_decisions := s.user_decisions ++ [a] } := by
  simp only [submitDecision, progress_case, h]

/-- Witness for the amended C4 on a concrete started session. -/
theorem collaborator_failure_frame_witness :
    submitDecision (fun _ => none) demo_started "No selection"
      = { demo_started with user_decisions := demo_started.user_decisions ++ ["No selection"] } :=
  collaborator_failure_frame (fun _ => none) demo_started "No selection" (fun _ => rfl)

/-- Counterexample to claim C8 as stated: with an empty history
transcript, the step-0 payload still carries its Conversation history
section — the labelled block is not omitted. -/
theorem empty_history_section_still_present :
    historyTranscript [] = ""
    ∧ pyIn "Conversation history:"
        (progressPrompt CARDIAC_CASE.content (historyTranscript []) ""
          "No selection" 0).1 = true := by
  refine ⟨rfl, ?_⟩
  show pyIn "Conversation history:"
    (prompt_initial_workup CARDIAC_CASE.content "" "No selection") = true
  exact pyIn_right _ _ _ (pyIn_right _ _ _ (pyIn_left _ _ _ (by decide)))

/-- Claim C8 amended: payload construction is total pure concatenation
and omits no section: every template always carries its Conversation
history block, and every template other than the step-0 one (whose
template, as lines 254-268 show, has no decisions block at all) always
carries its Physician decisions block, whether or not the transcripts
are empty. -/
theorem payload_sections_always_present :
    ∀ (c h d a : String) (i : Nat),
        pyIn "Conversation history:" (progressPrompt c h d a i).1 = true
        ∧ (i ≠ 0 → pyIn "Physician decisions so far:" (progressPrompt c h d a i).1 = true) := by
  intro c h d a i
  match i with
  | 0 =>
      refine ⟨?_, fun hh => absurd rfl hh⟩
      exact pyIn_right _ _ _ (pyIn_right _ _ _ (pyIn_left _ _ _ (by decide)))
  | 1 =>
      refine ⟨?_, fun _ => ?_⟩
      · exact pyIn_right _ _ _ (pyIn_right _ _ _ (pyIn_left _ _ _ (by decide)))
      · exact pyIn_right _ _ _ (pyIn_right _ _ _ (pyIn_right _ _ _ (pyIn_right _ _ _
          (pyIn_left _ _ _ (by decide)))))
  | 2 =>
      refine ⟨?_, fun _ => ?_⟩
      · exact pyIn_right _ _ _ (pyIn_right _ _ _ (pyIn_left _ _ _ (by decide)))
      · exact pyIn_right _ _ _ (pyIn_right _ _ _ (pyIn_right _ _ _ (pyIn_right _ _ _
          (pyIn_left _ _ _ (by decide)))))
  | 3 =>
      cases hv : postInterventionCorrect a
      · have hpp : progressPrompt c h d a 3 = (prompt_post_mi_retry c h d a, false) := by
          simp [progressPrompt, hv]
        rw [hpp]
        refine ⟨?_, fun _ => ?_⟩
        · exact pyIn_right _ _ _ (pyIn_right _ _ _ (pyIn_left _ _ _ (by decide)))
        · exact pyIn_right _ _ _ (pyIn_right _ _ _ (pyIn_right _ _ _ (pyIn_right _ _ _
            (pyIn_left _ _ _ (by decide)))))
      · have hpp : progressPrompt c h d a 3 = (prompt_post_mi_success c h d a, true) := by
          simp [progressPrompt, hv]
        rw [hpp]
        refine ⟨?_, fun _ => ?_⟩
        · exact pyIn_right _ _ _ (pyIn_right _ _ _ (pyIn_left _ _ _ (by decide)))
        · exact pyIn_right _ _ _ (pyIn_right _ _ _ (pyIn_right _ _ _ (pyIn_right _ _ _
            (pyIn_left _ _ _ (by decide)))))
  | n + 4 =>
      refine ⟨?_, fun _ => ?_⟩
      · exact pyIn_right _ _ _ (pyIn_right _ _ _ (pyIn_left _ _ _ (by decide)))
      · exact pyIn_right _ _ _ (pyIn_right _ _ _ (pyIn_right _ _ _ (pyIn_right _ _ _
          (pyIn_left _ _ _ (by decide)))))

/-- Claim C9: a freeform question never mutates step index, decisions,
history, completion flag or credential flag — only the chat transcript
and busy flag can change — and the instruction payload it builds always
records the case-completed marker, "Yes" once completed (so the
collaborator may relax disclosure) and "No" before that. -/
theorem freeform_question_frame :
    ∀ (gen : String → Option String) (s : SessionState) (q : String),
      (process_chat_input gen s q).current_step = s.current_step
      ∧ (process_chat_input gen s q).user_decisions = s.user_decisions
      ∧ (process_chat_input gen s q).case_history = s.case_history
      ∧ (process_chat_input gen s q).case_completed = s.case_completed
      ∧ (process_chat_input gen s q).cme_earned = s.cme_earned
      ∧ (s.case_completed = true →
          pyIn "- Case completed: Yes" (ask_question_prompt s q s.current_step) = true)
      ∧ (s.case_completed = false →
          pyIn "- Case completed: No" (ask_question_prompt s q s.current_step) = true) := by
  intro gen s q
  have honly : ∃ ch cp, process_chat_input gen s q
      = { s with chat_history := ch, chat_processing := cp } := by
    unfold process_chat_input
    split
    · cases hg : gen (ask_question_prompt { s with chat_processing := true } q
          ({ s with chat_processing := true } : SessionState).current_step) with
      | none => exact ⟨s.chat_history, true, by simp [hg]⟩
      | some r => exact ⟨s.chat_history ++ [(q, r)], false, by simp [hg]⟩
    · exact ⟨s.chat_history, s.chat_processing, rfl⟩
  obtain ⟨ch, cp, hrw⟩ := honly
  rw [hrw]
  refine ⟨rfl, rfl, rfl, rfl, rfl, ?_, ?_⟩
  · intro hc
    simp only [ask_question_prompt, hc, if_true]
    apply pyIn_right
    apply pyIn_right
    apply pyIn_right
    apply pyIn_right
    apply pyIn_right
    apply pyIn_right
    apply pyIn_right
    apply pyIn_right
    apply pyIn_right
    apply pyIn_right
    apply pyIn_right
    apply pyIn_right
    apply pyIn_right
    exact pyIn_left _ _ _ (by decide)
  · intro hc
    simp only [ask_question_prompt, hc, if_false]
    apply pyIn_right
    apply pyIn_right
    apply pyIn_right
    apply pyIn_right
    apply pyIn_right
    apply pyIn_right
    apply pyIn_right
    apply pyIn_right
    apply pyIn_right
    apply pyIn_right
    apply pyIn_right
    apply pyIn_right
    apply pyIn_right
    exact pyIn_left _ _ _ (by decide)

/-- Claim C2 evaluated on the code: in the retry scenario the wrong
terminal decision moves the step index past 3, and the later submission
of the correct terminal decision — although it satisfies the terminal
correctness predicate — is handled by the extra-steps branch, so the
case never completes and the credential is never issued. -/
theorem terminal_retry_never_completes :
    postInterventionCorrect
        "Initiate dual antiplatelet therapy, high-intensity statin, beta-blocker, and ACE inhibitor"
      = true
    ∧ (runCase (fun _ => "n") "user-1" "presentation" retry_decisions).case_completed = false
    ∧ (runCase (fun _ => "n") "user-1" "presentation" retry_decisions).cme_earned = false
    ∧ (runCase (fun _ => "n") "user-1" "presentation" retry_decisions).current_step = 5 := by
  refine ⟨by decide, by decide, by decide, by decide⟩
